import Mathlib

/-!
Shallow embedding of the website-monitoring repository's alert decision
engine (src/alerts.py, src/db.py), its scheduling policy (src/monitor.py)
and its health classifier (src/checker.py).

Timestamps and latency values (Python floats) are modelled as rationals:
the code only compares and subtracts them.  Python truthiness of optional
floats (`not x` is true for both `None` and `0.0`) and of optional strings
(`if metrics.error:` is false for `None` and for the empty string) is
modelled explicitly.
-/

namespace WebMon

/-- Health state of one observation: the three string values
`'OK' | 'SLOW' | 'DOWN'` used throughout src. -/
inductive Health where
  | OK
  | SLOW
  | DOWN
deriving DecidableEq, Repr

/-- The `alert_type` strings produced by `AlertManager.process_check_result`
(src/alerts.py): `'DOWN'`, `'SLOW'`, `'RECOVERED'`. -/
inductive AlertType where
  | DOWN
  | SLOW
  | RECOVERED
deriving DecidableEq, Repr

/-- `AlertProfile` dataclass (src/config.py lines 8-16). -/
structure AlertProfile where
  warn_ttfb_sec : ℚ
  crit_ttfb_sec : ℚ
  fail_count_to_alert : ℕ
  recover_count : ℕ
  remind_every_sec : ℕ
  cooldown_sec : ℕ
deriving DecidableEq, Repr

/-- `AlertState` dataclass (src/db.py lines 29-37); the `target_id` field is
dropped because the model tracks a single target's row. -/
structure AlertState where
  last_state : Health
  bad_since_ts : Option ℚ
  last_sent_ts : Option ℚ
  consecutive_failures : ℕ
  consecutive_successes : ℕ
deriving DecidableEq, Repr

/-- `new_state in ('SLOW', 'DOWN')` (src/alerts.py lines 42, 53). -/
def isBad (h : Health) : Bool :=
  match h with
  | .SLOW => true
  | .DOWN => true
  | .OK => false

/-- Python truthiness of an `Optional[float]`: `None` and `0.0` are falsy
(used by `not current_state.last_sent_ts`, `not bad_since` in
src/alerts.py lines 99, 108, 124). -/
def truthyOpt (x : Option ℚ) : Bool :=
  match x with
  | none => false
  | some v => v ≠ 0

/-- `Database.update_alert_state` (src/db.py lines 153-202), restricted to a
single target's row.  `current` is the stored row for the target (if any).
On UPDATE, a `None` argument for `bad_since_ts` or `last_sent_ts` keeps the
previously stored column value (lines 180-181); on INSERT the arguments are
stored as given. -/
def update_alert_state (current : Option AlertState) (new_state : Health)
    (bad_since_ts : Option ℚ) (last_sent_ts : Option ℚ)
    (consecutive_failures : ℕ) (consecutive_successes : ℕ) : AlertState :=
  match current with
  | some cur =>
      { last_state := new_state
        bad_since_ts :=
          match bad_since_ts with
          | some v => some v
          | none => cur.bad_since_ts
        last_sent_ts :=
          match last_sent_ts with
          | some v => some v
          | none => cur.last_sent_ts
        consecutive_failures := consecutive_failures
        consecutive_successes := consecutive_successes }
  | none =>
      { last_state := new_state
        bad_since_ts := bad_since_ts
        last_sent_ts := last_sent_ts
        consecutive_failures := consecutive_failures
        consecutive_successes := consecutive_successes }

/-- The `should_alert` / `alert_type` if/elif chain of
`AlertManager.process_check_result` (src/alerts.py lines 66-101), with the
new counters `nf = new_failures`, `ns = new_successes` already computed. -/
def alertDecision (cur : AlertState) (new_state : Health) (nf ns : ℕ)
    (prof : AlertProfile) : Option AlertType :=
  if cur.last_state = .OK ∧ isBad new_state then
    if nf ≥ prof.fail_count_to_alert then
      some (if new_state = .DOWN then .DOWN else .SLOW)
    else none
  else if isBad cur.last_state ∧ new_state = .OK then
    if ns ≥ prof.recover_count then some .RECOVERED else none
  else if cur.last_state = .SLOW ∧ new_state = .DOWN then
    if nf ≥ prof.fail_count_to_alert then some .DOWN else none
  else if cur.last_state = .DOWN ∧ new_state = .SLOW then
    some .SLOW
  else if isBad new_state ∧ isBad cur.last_state then
    if nf ≥ prof.fail_count_to_alert ∧ ¬ truthyOpt cur.last_sent_ts then
      some (if new_state = .DOWN then .DOWN else .SLOW)
    else none
  else none

/-- `AlertManager.process_check_result` (src/alerts.py lines 24-138) for one
target.  `prior` is the stored row, `now` is `time.time()`, and `deliver` is
the boolean returned by `self._send_alert(...)` when an alert is attempted
(the notification transport is an external collaborator).  Returns the row
written through `update_alert_state`, the alert decision (the `alert_type`
when `should_alert` was true), and the function's boolean return value. -/
def process_check_result (prior : Option AlertState) (new_state : Health)
    (prof : AlertProfile) (now : ℚ) (deliver : Bool) :
    AlertState × Option AlertType × Bool :=
  match prior with
  | none =>
      let is_bad := isBad new_state
      (update_alert_state none new_state
        (if is_bad then some now else none) none
        (if is_bad then 1 else 0) (if is_bad then 0 else 1),
       none, false)
  | some cur =>
      let nf : ℕ :=
        if isBad new_state then cur.consecutive_failures + 1
        else if new_state = .OK then 0
        else cur.consecutive_failures
      let ns : ℕ :=
        if isBad new_state then 0
        else if new_state = .OK then cur.consecutive_successes + 1
        else cur.consecutive_successes
      match alertDecision cur new_state nf ns prof with
      | some ty =>
          let success := deliver
          let bad_since :=
            if isBad new_state ∧ ¬ truthyOpt cur.bad_since_ts then some now
            else cur.bad_since_ts
          (update_alert_state (some cur) new_state
            (if isBad new_state then bad_since else none)
            (if success then some now else cur.last_sent_ts) nf ns,
           some ty, success)
      | none =>
          let bad_since :=
            if isBad new_state ∧ ¬ truthyOpt cur.bad_since_ts then some now
            else if new_state = .OK then none
            else cur.bad_since_ts
          (update_alert_state (some cur) new_state bad_since
            cur.last_sent_ts nf ns,
           none, false)

/-- Threads `process_check_result` over a list of observations
`(now, health, delivery outcome)`, returning the final stored row and the
per-call trace of `(alert decision, returned bool)`. -/
def runSeq (prof : AlertProfile) :
    Option AlertState → List (ℚ × Health × Bool) →
    Option AlertState × List (Option AlertType × Bool)
  | st, [] => (st, [])
  | st, (now, h, d) :: rest =>
      let r := process_check_result st h prof now d
      let t := runSeq prof (some r.1) rest
      (t.1, (r.2.1, r.2.2) :: t.2)

/-- The alert decisions of a run, in call order. -/
def decisions (prof : AlertProfile) (st : Option AlertState)
    (obs : List (ℚ × Health × Bool)) : List (Option AlertType) :=
  (runSeq prof st obs).2.map (·.1)

/-- `should_check_page` (src/monitor.py lines 22-36) for one page.
`stableHash` stands for `stable_hash` (src/monitor.py lines 17-19), the md5
digest of the identity string read as an integer; the digest itself is a
foreign library call, so the hash is an explicit function parameter here —
every concrete hash function instantiates it. `last_check_time` is
`db.get_last_check_time(page.target_id)` and `every_sec` is
`page.every_sec`. -/
def should_check_page (stableHash : String → ℕ) (target_id : String)
    (every_sec : ℕ) (last_check_time : Option ℚ) (now : ℚ) : Bool :=
  let last_check : ℚ :=
    match last_check_time with
    | none => now - (stableHash target_id % every_sec : ℕ)
    | some t => t
  decide (now - last_check ≥ (every_sec : ℚ))

/-- The fields of the `CheckMetrics` dataclass (src/checker.py lines 8-19)
consumed by `PageChecker.check`. -/
structure CheckMetrics where
  http_code : Option ℤ
  dns : Option ℚ
  connect : Option ℚ
  tls : Option ℚ
  ttfb : Option ℚ
  total : Option ℚ
  size : Option ℤ
  error : Option String
  body : Option String
deriving DecidableEq, Repr

/-- Python truthiness of an `Optional[str]`: `None` and `''` are falsy
(`if metrics.error:`, `if not metrics.body`). -/
def truthyStr (s : Option String) : Bool :=
  match s with
  | none => false
  | some v => !v.isEmpty

/-- `pre` is a prefix of the character list `l`. -/
def charsPrefix : List Char → List Char → Bool
  | [], _ => true
  | _ :: _, [] => false
  | a :: as, b :: bs => a == b && charsPrefix as bs

/-- `needle` occurs as a contiguous sublist of `hay` (an empty needle
occurs everywhere). -/
def charsContains (hay needle : List Char) : Bool :=
  match needle, hay with
  | [], _ => true
  | _ :: _, [] => false
  | n :: ns, _ :: tl => charsPrefix (n :: ns) hay || charsContains tl (n :: ns)

/-- Python's `needle in hay` substring test on strings. -/
def strContains (hay needle : String) : Bool :=
  charsContains hay.data needle.data

/-- `metrics.http_code not in self.page.expect_http`, negated
(src/checker.py line 47): an absent status code is never in the list. -/
def httpAccepted (expect_http : List ℤ) (code : Option ℤ) : Bool :=
  match code with
  | some c => expect_http.contains c
  | none => false

/-- Negation of `not metrics.body or self.page.token not in metrics.body`
(src/checker.py line 52): the body is truthy and contains the token. -/
def markerPresent (body : Option String) (token : String) : Bool :=
  truthyStr body && strContains (body.getD "") token

/-- `PageChecker.check` (src/checker.py lines 31-66) after `_run_curl` has
produced `m` — the classification of a completed probe.  `expect_http` is
`page.expect_http` and `token` is `page.token`. -/
def check (expect_http : List ℤ) (token : String) (prof : AlertProfile)
    (m : CheckMetrics) : Bool × Health :=
  if truthyStr m.error then (false, .DOWN)
  else if !httpAccepted expect_http m.http_code then (false, .DOWN)
  else if !markerPresent m.body token then (false, .DOWN)
  else
    match m.ttfb with
    | none => (false, .DOWN)
    | some t =>
        if t ≥ prof.crit_ttfb_sec then (true, .SLOW)
        else if t ≥ prof.warn_ttfb_sec then (true, .SLOW)
        else (true, .OK)

/-! ### Theorems about the claims -/

/-- `decisions` unfolding for one observation. -/
lemma decisions_cons (prof : AlertProfile) (st : Option AlertState)
    (now : ℚ) (h : Health) (d : Bool) (obs : List (ℚ × Health × Bool)) :
    decisions prof st ((now, h, d) :: obs)
      = (process_check_result st h prof now d).2.1
        :: decisions prof (some (process_check_result st h prof now d).1) obs :=
  rfl

/-- C6: on the first observation of a target (no stored row), the code never
notifies, returns `False`, and inserts a row with `consecutive_failures = 1`,
`consecutive_successes = 0`, `bad_since_ts = now` when the health is SLOW or
DOWN, and `consecutive_failures = 0`, `consecutive_successes = 1`,
`bad_since_ts` absent when the health is OK; `last_sent_ts` starts absent. -/
theorem C6_first_observation_initializes (h : Health) (prof : AlertProfile)
    (now : ℚ) (d : Bool) :
    process_check_result none h prof now d =
      ({ last_state := h
         bad_since_ts := if isBad h then some now else none
         last_sent_ts := none
         consecutive_failures := if isBad h then 1 else 0
         consecutive_successes := if isBad h then 0 else 1 }, none, false) := by
  cases h <;> rfl

/-- C10: for a target that already has a stored row, `update_alert_state`
stores a passed `bad_since_ts`/`last_sent_ts` value when it is present and
keeps the previously stored value when `None` is passed, so either field,
once present, stays present after every update. -/
theorem C10_update_never_clears (cur : AlertState) (ns : Health)
    (bs ls : Option ℚ) (cf cs : ℕ) :
    ((update_alert_state (some cur) ns bs ls cf cs).bad_since_ts
        = match bs with | some v => some v | none => cur.bad_since_ts)
    ∧ ((update_alert_state (some cur) ns bs ls cf cs).last_sent_ts
        = match ls with | some v => some v | none => cur.last_sent_ts)
    ∧ ((update_alert_state (some cur) ns bs ls cf cs).bad_since_ts.isSome
        = (bs.isSome || cur.bad_since_ts.isSome))
    ∧ ((update_alert_state (some cur) ns bs ls cf cs).last_sent_ts.isSome
        = (ls.isSome || cur.last_sent_ts.isSome)) := by
  refine ⟨rfl, rfl, ?_, ?_⟩ <;> cases bs <;> cases ls <;>
    simp [update_alert_state]

/-- C4 (failing input): with a stored row `{last_state := DOWN,
bad_since_ts := 50}` and an OK observation at `now = 100`, the code keeps
`bad_since_ts = 50` instead of clearing it: `process_check_result` passes
`None` to `update_alert_state`, which interprets `None` as "keep the stored
column". -/
theorem C4_ok_keeps_stale_bad_since :
    (process_check_result (some ⟨.DOWN, some 50, none, 1, 0⟩) .OK
        ⟨2, 3, 2, 2, 3600, 300⟩ 100 true).1
      = ⟨.OK, some 50, none, 0, 1⟩ := by
  decide

/-- C2 (failing input): with thresholds `fail_count_to_alert = 2`,
`recover_count = 2`, `cooldown = 300`, `remind_every = 3600` and no prior
row, the health sequence OK, DOWN, DOWN, OK, OK yields the decisions
none, none, DOWN-alert, none, none — the code emits no RECOVERED on the
second OK, because the first OK already overwrote `last_state` to OK and
the OK→OK case matches no transition rule. -/
theorem C2_no_recovered_on_second_ok :
    (runSeq ⟨2, 3, 2, 2, 3600, 300⟩ none
        [(0, .OK, true), (10, .DOWN, true), (20, .DOWN, true),
         (30, .OK, true), (40, .OK, true)]).2
      = [(none, false), (none, false), (some .DOWN, true),
         (none, false), (none, false)] := by
  decide

/-- C1 (failing input): with `cooldown_sec = 300` and
`fail_count_to_alert = recover_count = 1`, the run OK at 0, DOWN at 10,
SLOW at 20 (all deliveries succeeding) emits two successful notifications
10 seconds apart — the code applies no cooldown gate (`cooldown_sec` is
never read), so the DOWN→SLOW rule fires inside the cooldown window of the
notification sent at time 10. -/
theorem C1_notifications_within_cooldown :
    (runSeq ⟨2, 3, 1, 1, 3600, 300⟩ none
        [(0, .OK, true), (10, .DOWN, true), (20, .SLOW, true)]).2
      = [(none, false), (some .DOWN, true), (some .SLOW, true)]
    ∧ (⟨2, 3, 1, 1, 3600, 300⟩ : AlertProfile).cooldown_sec = 300
    ∧ (20 : ℚ) - 10 < 300 := by
  refine ⟨by decide, rfl, by norm_num⟩

/-- C3 (counterexample): thresholds `fail_count_to_alert = 2`,
`cooldown = 300`; prior row has `last_state = OK`, zeroed failure counter
and `last_sent_ts = 100` from an earlier incident.  Two DOWN observations
at 500 and 510 — both more than `cooldown` past `last_sent_ts`, so no
cooldown suppression could apply — produce no notification at all: the
sustained-bad rule requires `last_sent_ts` to be unset, so the k-th
consecutive bad observation does not alert. -/
theorem C3_counterexample_prior_notified :
    (runSeq ⟨2, 3, 2, 2, 3600, 300⟩ (some ⟨.OK, none, some 100, 0, 1⟩)
        [(500, .DOWN, true), (510, .DOWN, true)]).2
      = [(none, false), (none, false)]
    ∧ ((⟨2, 3, 2, 2, 3600, 300⟩ : AlertProfile).cooldown_sec : ℚ) ≤ 500 - 100 := by
  refine ⟨by decide, by norm_num⟩

/-- The keep-on-`None` column update is the identity when the stored value
is passed back: `match o with | some v => some v | none => o` is `o`. -/
lemma option_refold (o : Option ℚ) :
    (match o with | some v => some v | none => o) = o := by
  cases o <;> rfl

/-- C5: the alert decision does not depend on the delivery outcome; on a
successful delivery the stored `last_sent_ts` becomes `now` exactly when a
notification was decided, on a failed delivery it is always the previous
value; health, `bad_since_ts` and both counters are persisted identically
for both delivery outcomes. -/
theorem C5_last_sent_advances_iff_delivery (cur : AlertState) (h : Health)
    (prof : AlertProfile) (now : ℚ) :
    (process_check_result (some cur) h prof now true).2.1
        = (process_check_result (some cur) h prof now false).2.1
    ∧ (process_check_result (some cur) h prof now true).1.last_sent_ts
        = (if (process_check_result (some cur) h prof now true).2.1.isSome
           then some now else cur.last_sent_ts)
    ∧ (process_check_result (some cur) h prof now false).1.last_sent_ts
        = cur.last_sent_ts
    ∧ (process_check_result (some cur) h prof now false).1.last_state
        = (process_check_result (some cur) h prof now true).1.last_state
    ∧ (process_check_result (some cur) h prof now false).1.bad_since_ts
        = (process_check_result (some cur) h prof now true).1.bad_since_ts
    ∧ (process_check_result (some cur) h prof now false).1.consecutive_failures
        = (process_check_result (some cur) h prof now true).1.consecutive_failures
    ∧ (process_check_result (some cur) h prof now false).1.consecutive_successes
        = (process_check_result (some cur) h prof now true).1.consecutive_successes := by
  cases hd : alertDecision cur h
      (if isBad h then cur.consecutive_failures + 1
       else if h = .OK then 0 else cur.consecutive_failures)
      (if isBad h then 0
       else if h = .OK then cur.consecutive_successes + 1
       else cur.consecutive_successes) prof <;>
    simp [process_check_result, hd, update_alert_state, option_refold]

/-- C8: with a recorded last probe time `t`, `should_check_page` is true
exactly when `now - t ≥ every_sec`; with no recorded probe it is true
exactly when `stableHash(target_id) mod every_sec ≥ every_sec` (the virtual
last probe being `now - offset`). -/
theorem C8_due_rule (f : String → ℕ) (tid : String) (every : ℕ)
    (lc : Option ℚ) (now : ℚ) (hpos : 0 < every) :
    should_check_page f tid every lc now = true ↔
      (match lc with
       | some t => (every : ℚ) ≤ now - t
       | none => every ≤ f tid % every) := by
  cases lc with
  | some t => simp [should_check_page, ge_iff_le]
  | none =>
      simp only [should_check_page, ge_iff_le, decide_eq_true_eq,
        sub_sub_cancel]
      exact_mod_cast Iff.rfl

/-- Witness for C8 at a concrete instance. -/
theorem C8_due_rule_witness :
    0 < 3 ∧ (should_check_page (fun _ => 5) "site:page" 3 (some 6) 10 = true
      ↔ (3 : ℚ) ≤ 10 - 6) :=
  ⟨by decide, C8_due_rule (fun _ => 5) "site:page" 3 (some 6) 10 (by decide)⟩

/-- C9: a target with a positive interval and no recorded prior check is
never due, for every `now`: the hash offset is strictly below the interval,
so `should_check_page` returns false. -/
theorem C9_never_probed_never_due (f : String → ℕ) (tid : String)
    (every : ℕ) (now : ℚ) (hpos : 0 < every) :
    should_check_page f tid every none now = false := by
  have hlt : f tid % every < every := Nat.mod_lt _ hpos
  simp only [should_check_page, ge_iff_le, decide_eq_false_iff_not, not_le,
    sub_sub_cancel]
  exact_mod_cast hlt

/-- Witness for C9 at a concrete instance. -/
theorem C9_never_probed_never_due_witness :
    0 < 60 ∧ should_check_page (fun _ => 12345) "site:home" 60 none 999 = false :=
  ⟨by decide, C9_never_probed_never_due (fun _ => 12345) "site:home" 60 999
    (by decide)⟩

/-- C7 (counterexample): with `warn_ttfb_sec = 3` and `crit_ttfb_sec = 1`
and a probe whose TTFB is 2 — status accepted, marker present, no error —
the classifier returns SLOW although TTFB is below `warn_ttfb_sec`: the
code tests `ttfb ≥ crit_ttfb_sec` first, so the verdict is not
"SLOW exactly when ttfb ≥ warn_latency" for arbitrary thresholds. -/
theorem C7_counterexample_crit_below_warn :
    (check [200] "x" ⟨3, 1, 2, 2, 3600, 300⟩
        ⟨some 200, none, none, none, some 2, none, none, none, some "x"⟩).2
      = .SLOW
    ∧ ¬ ((2 : ℚ) ≥ (⟨3, 1, 2, 2, 3600, 300⟩ : AlertProfile).warn_ttfb_sec) := by
  refine ⟨by decide, by norm_num⟩

/-- C7 (amended): the classifier returns DOWN exactly when the probe
carries a (truthy) error, or the status is outside the acceptance list, or
the content marker is not present in the body, or TTFB is unavailable;
otherwise SLOW exactly when TTFB is at least `crit_ttfb_sec` or at least
`warn_ttfb_sec` (which is "at least `warn_ttfb_sec`" whenever
`warn_ttfb_sec ≤ crit_ttfb_sec`), and OK otherwise. -/
theorem C7_classifier_bands (expect_http : List ℤ) (token : String)
    (prof : AlertProfile) (m : CheckMetrics) :
    ((check expect_http token prof m).2 = .DOWN ↔
      (truthyStr m.error = true ∨ httpAccepted expect_http m.http_code = false
        ∨ markerPresent m.body token = false ∨ m.ttfb = none))
    ∧ ((check expect_http token prof m).2 = .SLOW ↔
      (truthyStr m.error = false ∧ httpAccepted expect_http m.http_code = true
        ∧ markerPresent m.body token = true
        ∧ ∃ t, m.ttfb = some t
            ∧ (prof.crit_ttfb_sec ≤ t ∨ prof.warn_ttfb_sec ≤ t)))
    ∧ ((check expect_http token prof m).2 = .OK ↔
      (truthyStr m.error = false ∧ httpAccepted expect_http m.http_code = true
        ∧ markerPresent m.body token = true
        ∧ ∃ t, m.ttfb = some t
            ∧ t < prof.crit_ttfb_sec ∧ t < prof.warn_ttfb_sec)) := by
  cases herr : truthyStr m.error <;>
    cases hhttp : httpAccepted expect_http m.http_code <;>
      cases hmark : markerPresent m.body token <;>
        cases httfb : m.ttfb <;>
          simp [check, herr, hhttp, hmark, httfb]
  case false.true.true.some t =>
    by_cases hc : prof.crit_ttfb_sec ≤ t <;>
      by_cases hw : prof.warn_ttfb_sec ≤ t <;>
        simp [hc, hw, ge_iff_le, not_le]
    exact ⟨not_le.mp hc, not_le.mp hw⟩


/-- The if/elif chain on a stored DOWN row seeing DOWN again with no prior
successful notification: only the sustained-bad rule can fire. -/
lemma alertDecision_down_down (bs : Option ℚ) (cf cs nf ns : ℕ)
    (prof : AlertProfile) :
    alertDecision ⟨.DOWN, bs, none, cf, cs⟩ .DOWN nf ns prof
      = if prof.fail_count_to_alert ≤ nf then some .DOWN else none := by
  simp [alertDecision, isBad, truthyOpt, ge_iff_le]

/-- The if/elif chain on a stored OK row seeing DOWN: only the fresh-onset
rule can fire, whatever `last_sent_ts` holds. -/
lemma alertDecision_ok_down (bs ls : Option ℚ) (cf cs nf ns : ℕ)
    (prof : AlertProfile) :
    alertDecision ⟨.OK, bs, ls, cf, cs⟩ .DOWN nf ns prof
      = if prof.fail_count_to_alert ≤ nf then some .DOWN else none := by
  simp [alertDecision, isBad, ge_iff_le]

/-- One DOWN evaluation on a DOWN row with `j + 1` still below the alert
threshold: no notification, counter incremented, `last_sent_ts` kept
absent. -/
lemma process_down_step (bs : Option ℚ) (j : ℕ) (prof : AlertProfile)
    (t : ℚ) (d : Bool) (hlt : j + 1 < prof.fail_count_to_alert) :
    process_check_result (some ⟨.DOWN, bs, none, j, 0⟩) .DOWN prof t d
      = (⟨.DOWN, if truthyOpt bs then bs else some t, none, j + 1, 0⟩,
         none, false) := by
  have hnot : ¬ (prof.fail_count_to_alert ≤ j + 1) := by omega
  by_cases hb : truthyOpt bs <;>
    simp [process_check_result, alertDecision_down_down, hnot, isBad,
      update_alert_state, hb, option_refold]

/-- One DOWN evaluation on an OK row with zeroed failure counter, threshold
at least 2: no notification, failure counter becomes 1. -/
lemma process_ok_down_step (bs0 : Option ℚ) (cs0 : ℕ) (prof : AlertProfile)
    (t : ℚ) (d : Bool) (hlt : 1 < prof.fail_count_to_alert) :
    process_check_result (some ⟨.OK, bs0, none, 0, cs0⟩) .DOWN prof t d
      = (⟨.DOWN, if truthyOpt bs0 then bs0 else some t, none, 1, 0⟩,
         none, false) := by
  have hnot : ¬ (prof.fail_count_to_alert ≤ 0 + 1) := by omega
  by_cases hb : truthyOpt bs0 <;>
    simp [process_check_result, alertDecision_ok_down, hnot, isBad,
      update_alert_state, hb, option_refold]

/-- A DOWN row with failure counter `j`, no prior successful notification,
fed DOWN observations until the threshold is reached, alerts exactly on the
last one. -/
lemma down_run (prof : AlertProfile) :
    ∀ (ts : List ℚ) (j : ℕ) (bs : Option ℚ),
      j + ts.length = prof.fail_count_to_alert → ts ≠ [] →
      decisions prof (some ⟨.DOWN, bs, none, j, 0⟩)
          (ts.map fun t => (t, .DOWN, true))
        = List.replicate (ts.length - 1) none ++ [some .DOWN] := by
  intro ts
  induction ts with
  | nil => intro j bs hk hne; exact absurd rfl hne
  | cons t rest ih =>
      intro j bs hk _
      cases rest with
      | nil =>
          have hge : prof.fail_count_to_alert ≤ j + 1 := by
            simp at hk; omega
          simp [decisions, runSeq, process_check_result,
            alertDecision_down_down, hge, isBad]
      | cons r rs =>
          have hlt : j + 1 < prof.fail_count_to_alert := by
            simp at hk; omega
          have step := process_down_step bs j prof t true hlt
          rw [List.map_cons, decisions_cons, step]
          dsimp only
          rw [ih (j + 1) (if truthyOpt bs then bs else some t)
            (by simp at hk ⊢; omega) (by simp)]
          simp [List.replicate_succ]

/-- C3 (amended): starting from a stored row with `last_state = OK`, zeroed
failure counter and **absent** `last_sent_ts`, a run of
`k = fail_count_to_alert` DOWN observations produces its single DOWN
notification exactly on the k-th one — not earlier, not later.  (When
`last_sent_ts` is already set from an earlier incident and `k ≥ 2`, no
notification is produced at all; see the counterexample.) -/
theorem C3_onset_exactly_kth (prof : AlertProfile) (bs0 : Option ℚ)
    (cs0 : ℕ) (ts : List ℚ) (hk : 1 ≤ prof.fail_count_to_alert)
    (hlen : ts.length = prof.fail_count_to_alert) :
    decisions prof (some ⟨.OK, bs0, none, 0, cs0⟩)
        (ts.map fun t => (t, .DOWN, true))
      = List.replicate (prof.fail_count_to_alert - 1) none
        ++ [some .DOWN] := by
  cases ts with
  | nil => simp at hlen; omega
  | cons t rest =>
      by_cases hone : prof.fail_count_to_alert = 1
      · have hrest : rest = [] := by
          cases rest with
          | nil => rfl
          | cons r rs => simp [hone] at hlen
        subst hrest
        have hge : prof.fail_count_to_alert ≤ 0 + 1 := by omega
        simp [decisions, runSeq, process_check_result,
          alertDecision_ok_down, hge, isBad, hone]
      · have hlt : 1 < prof.fail_count_to_alert := by omega
        have step := process_ok_down_step bs0 cs0 prof t true hlt
        rw [List.map_cons, decisions_cons, step]
        dsimp only
        have hrne : rest ≠ [] := by
          cases rest with
          | nil => simp at hlen; omega
          | cons r rs => simp
        rw [down_run prof rest 1 (if truthyOpt bs0 then bs0 else some t)
          (by simp at hlen ⊢; omega) hrne]
        have h1 : prof.fail_count_to_alert - 1 = (rest.length - 1) + 1 := by
          simp at hlen
          omega
        rw [h1, List.replicate_succ]
        simp

/-- Witness for C3 (amended): with threshold 2 and a clean prior OK row,
two DOWN observations alert exactly on the second. -/
theorem C3_onset_exactly_kth_witness :
    1 ≤ (⟨2, 3, 2, 2, 3600, 300⟩ : AlertProfile).fail_count_to_alert
    ∧ [(7 : ℚ), 9].length
        = (⟨2, 3, 2, 2, 3600, 300⟩ : AlertProfile).fail_count_to_alert
    ∧ decisions ⟨2, 3, 2, 2, 3600, 300⟩ (some ⟨.OK, none, none, 0, 1⟩)
        ([(7 : ℚ), 9].map fun t => (t, .DOWN, true))
      = List.replicate
          ((⟨2, 3, 2, 2, 3600, 300⟩ : AlertProfile).fail_count_to_alert - 1)
          none ++ [some .DOWN] :=
  ⟨by decide, by decide,
    C3_onset_exactly_kth ⟨2, 3, 2, 2, 3600, 300⟩ none 1 [7, 9]
      (by decide) (by decide)⟩

end WebMon
